import Mathlib

/-!
Verification of the problem-details construction library in
`src/src/index.ts`: a shared `buildProblem` routine, nineteen per-status
constructors, and the helpers `getExtensionsOrEmpty` and
`resolveExtensions` that copy or merge the caller-supplied extension bag.

JavaScript objects are embedded as association lists of string keys and
values; the object-literal spread `{ k: v, ...o }` is embedded as
assigning each property of `o` in order on top of the initial bindings
(`setKey` / `spreadInto`), which reproduces the last-write-wins collision
behaviour of spread. JavaScript objects never hold two bindings of the
same key, so theorems about an arbitrary caller bag carry a `Nodup`
hypothesis on its key list.
-/

namespace Problems

/-- A JavaScript value as it appears in extension bags and field-errors
maps: strings, numbers, arrays and nested objects. -/
inductive Val where
  | vStr (s : String)
  | vNum (n : Int)
  | vArr (elems : List Val)
  | vObj (fields : List (String × Val))

/-- A JavaScript object (`Record<string, unknown>` in the source):
an ordered list of key/value bindings with pairwise distinct keys. -/
abbrev Obj := List (String × Val)

/-- Property read `o[key]`: the value bound to `key`, if any. -/
def getProp : Obj → String → Option Val
  | [], _ => none
  | (k, v) :: rest, key => if k = key then some v else getProp rest key

/-- Property write `o[key] = v` as performed by object-literal evaluation:
an existing binding is overwritten in place, a new key is appended. -/
def setKey : Obj → String → Val → Obj
  | [], key, v => [(key, v)]
  | (k, w) :: rest, key, v =>
      if k = key then (k, v) :: rest else (k, w) :: setKey rest key v

/-- Spread `{ ...dst-so-far, ...src }`: assign every binding of `src`, in
order, on top of `dst`. Later bindings overwrite earlier ones, exactly as
the JavaScript spread operator does. -/
def spreadInto : Obj → Obj → Obj
  | dst, [] => dst
  | dst, (k, v) :: rest => spreadInto (setKey dst k v) rest

/-- The `Maybe` optional-value wrapper from @pickle-packs/nads, an
external collaborator of the source; modelled per its documented
two-variant present/absent semantics. -/
abbrev Maybe (α : Type) := Option α

/-- The `match` reducer of the nads `Maybe`: apply the handler to a
present value, otherwise return the default. -/
def maybeMatch {α β : Type} (m : Maybe α) (onSome : α → β) (onNone : β) : β :=
  match m with
  | some x => onSome x
  | none => onNone

/-- `contentType` from src/src/index.ts. -/
def contentType : String := "application/problem+json; charset=utf-8"

/-- `extensionsErrorKey` from src/src/index.ts. -/
def extensionsErrorKey : String := "errors"

/-- The `statusCodes` table from src/src/index.ts. -/
def statusCodes.badRequest : Nat := 400

def statusCodes.conflict : Nat := 409

def statusCodes.forbidden : Nat := 403

def statusCodes.gone : Nat := 410

def statusCodes.internalServerError : Nat := 500

def statusCodes.methodNotAllowed : Nat := 405

def statusCodes.notAcceptable : Nat := 406

def statusCodes.notFound : Nat := 404

def statusCodes.notImplemented : Nat := 501

def statusCodes.paymentRequired : Nat := 402

def statusCodes.preconditionFailed : Nat := 412

def statusCodes.preconditionRequired : Nat := 428

def statusCodes.requestTimeout : Nat := 408

def statusCodes.serviceUnavailable : Nat := 503

def statusCodes.tooManyRequests : Nat := 429

def statusCodes.unauthorized : Nat := 401

def statusCodes.unavailableForLegalReasons : Nat := 451

def statusCodes.unprocessableContent : Nat := 422

def statusCodes.unsupportedMediaType : Nat := 415

/-- The `Problem` record type from src/src/index.ts. `extensions` is
`Record<string, unknown> | undefined` in the source, embedded as
`Option Obj`. -/
structure Problem where
  detail : String
  extensions : Option Obj
  «instance» : String
  status : Nat
  title : String
  type : String

/-- `getExtensionsOrEmpty` from src/src/index.ts: a shallow copy
`{ ...x }` of a present bag, or the empty object. -/
def getExtensionsOrEmpty (maybeExtensions : Maybe Obj) : Obj :=
  maybeMatch maybeExtensions (fun x => spreadInto [] x) []

/-- `resolveExtensions` from src/src/index.ts: a shallow copy `{ ...x }`
of a present bag, or `undefined`. -/
def resolveExtensions (maybeExtensions : Maybe Obj) : Option Obj :=
  maybeMatch maybeExtensions (fun x => some (spreadInto [] x)) none

/-- `buildProblem` from src/src/index.ts. -/
def buildProblem (status : Nat) (title ty inst detail : String)
    (maybeExtensions : Maybe Obj) : Problem :=
  { detail := detail
    extensions := resolveExtensions maybeExtensions
    «instance» := inst
    status := status
    title := title
    type := ty }

/-- Embedding of a `Record<string, Array<string>>` field-errors map (the
`errors` argument of badRequest, internalServerError and
preconditionFailed) as a `Val`. -/
def fieldErrorsVal (e : List (String × List String)) : Val :=
  Val.vObj (e.map (fun kv => (kv.1, Val.vArr (kv.2.map Val.vStr))))

/-- `badRequest` from src/src/index.ts. -/
def badRequest (inst ty detail : String) (errors : List (String × List String))
    (maybeExtensions : Maybe Obj) : Problem :=
  let extensionsWithErrors : Obj :=
    spreadInto (setKey [] extensionsErrorKey (fieldErrorsVal errors))
      (getExtensionsOrEmpty maybeExtensions)
  buildProblem statusCodes.badRequest "Bad Request" ty inst detail
    (some extensionsWithErrors)

/-- `conflict` from src/src/index.ts. -/
def conflict (inst ty detail : String) (maybeExtensions : Maybe Obj) : Problem :=
  buildProblem statusCodes.conflict "Conflict" ty inst detail maybeExtensions

/-- `forbidden` from src/src/index.ts. -/
def forbidden (inst ty detail : String) (maybeExtensions : Maybe Obj) : Problem :=
  buildProblem statusCodes.forbidden "Forbidden" ty inst detail maybeExtensions

/-- `gone` from src/src/index.ts. -/
def gone (inst ty detail : String) (maybeExtensions : Maybe Obj) : Problem :=
  buildProblem statusCodes.gone "Gone" ty inst detail maybeExtensions

/-- `internalServerError` from src/src/index.ts. -/
def internalServerError (inst ty detail : String)
    (errors : List (String × List String)) (maybeExtensions : Maybe Obj) : Problem :=
  let extensionsWithErrors : Obj :=
    spreadInto (setKey [] extensionsErrorKey (fieldErrorsVal errors))
      (getExtensionsOrEmpty maybeExtensions)
  buildProblem statusCodes.internalServerError "Internal Server Error" ty inst
    detail (some extensionsWithErrors)

/-- `methodNotAllowed` from src/src/index.ts. -/
def methodNotAllowed (inst ty detail : String) (maybeExtensions : Maybe Obj) : Problem :=
  buildProblem statusCodes.methodNotAllowed "Method Not Allowed" ty inst detail
    maybeExtensions

/-- `notAcceptable` from src/src/index.ts. -/
def notAcceptable (inst ty detail : String) (maybeExtensions : Maybe Obj) : Problem :=
  buildProblem statusCodes.notAcceptable "Not Acceptable" ty inst detail
    maybeExtensions

/-- `notFound` from src/src/index.ts. -/
def notFound (inst ty detail : String) (maybeExtensions : Maybe Obj) : Problem :=
  buildProblem statusCodes.notFound "Not Found" ty inst detail maybeExtensions

/-- `notImplemented` from src/src/index.ts. -/
def notImplemented (inst ty detail : String) (maybeExtensions : Maybe Obj) : Problem :=
  buildProblem statusCodes.notImplemented "Not Implemented" ty inst detail
    maybeExtensions

/-- `paymentRequired` from src/src/index.ts. -/
def paymentRequired (inst ty detail : String) (maybeExtensions : Maybe Obj) : Problem :=
  buildProblem statusCodes.paymentRequired "Payment Required" ty inst detail
    maybeExtensions

/-- `preconditionFailed` from src/src/index.ts. -/
def preconditionFailed (inst ty detail : String)
    (errors : List (String × List String)) (maybeExtensions : Maybe Obj) : Problem :=
  let extensionsWithErrors : Obj :=
    spreadInto (setKey [] extensionsErrorKey (fieldErrorsVal errors))
      (getExtensionsOrEmpty maybeExtensions)
  buildProblem statusCodes.preconditionFailed "Precondition Failed" ty inst
    detail (some extensionsWithErrors)

/-- `preconditionRequired` from src/src/index.ts. -/
def preconditionRequired (inst ty detail : String) (maybeExtensions : Maybe Obj) : Problem :=
  buildProblem statusCodes.preconditionRequired "Precondition Required" ty inst
    detail maybeExtensions

/-- `requestTimeout` from src/src/index.ts. -/
def requestTimeout (inst ty detail : String) (maybeExtensions : Maybe Obj) : Problem :=
  buildProblem statusCodes.requestTimeout "Request Timeout" ty inst detail
    maybeExtensions

/-- `serviceUnavailable` from src/src/index.ts. -/
def serviceUnavailable (inst ty detail : String) (maybeExtensions : Maybe Obj) : Problem :=
  buildProblem statusCodes.serviceUnavailable "Service Unavailable" ty inst
    detail maybeExtensions

/-- `tooManyRequests` from src/src/index.ts. -/
def tooManyRequests (inst ty detail : String) (maybeExtensions : Maybe Obj) : Problem :=
  buildProblem statusCodes.tooManyRequests "Too Many Requests" ty inst detail
    maybeExtensions

/-- `unauthorized` from src/src/index.ts. -/
def unauthorized (inst ty detail : String) (maybeExtensions : Maybe Obj) : Problem :=
  buildProblem statusCodes.unauthorized "Unauthorized" ty inst detail
    maybeExtensions

/-- `unavailableForLegalReasons` from src/src/index.ts. -/
def unavailableForLegalReasons (inst ty detail : String)
    (maybeExtensions : Maybe Obj) : Problem :=
  buildProblem statusCodes.unavailableForLegalReasons
    "Unavailable For Legal Reasons" ty inst detail maybeExtensions

/-- `unprocessableContent` from src/src/index.ts. Its `errors` argument is
`Record<string, unknown>`, so it is an `Obj` rather than a map to string
arrays. -/
def unprocessableContent (inst ty detail : String) (errors : Obj)
    (maybeExtensions : Maybe Obj) : Problem :=
  let extensionsWithErrors : Obj :=
    spreadInto (setKey [] extensionsErrorKey (Val.vObj errors))
      (getExtensionsOrEmpty maybeExtensions)
  buildProblem statusCodes.unprocessableContent "Unprocessable Content" ty inst
    detail (some extensionsWithErrors)

/-- `unsupportedMediaType` from src/src/index.ts. -/
def unsupportedMediaType (inst ty detail : String) (maybeExtensions : Maybe Obj) : Problem :=
  buildProblem statusCodes.unsupportedMediaType "Unsupported Media Type" ty inst
    detail maybeExtensions

/-- A key with no binding reads back as `none`. -/
theorem getProp_eq_none_of_not_mem (o : Obj) (k : String)
    (h : k ∉ o.map Prod.fst) : getProp o k = none := by
  induction o with
  | nil => rfl
  | cons kv rest ih =>
      obtain ⟨a, b⟩ := kv
      simp only [List.map_cons, List.mem_cons] at h
      push_neg at h
      simp only [getProp]
      rw [if_neg (fun hq => h.1 hq.symm), ih h.2]

/-- A key that reads back as `none` has no binding. -/
theorem not_mem_of_getProp_eq_none (o : Obj) (k : String)
    (h : getProp o k = none) : k ∉ o.map Prod.fst := by
  induction o with
  | nil => simp
  | cons kv rest ih =>
      obtain ⟨a, b⟩ := kv
      by_cases hak : a = k
      · subst hak
        simp [getProp] at h
      · simp only [getProp, if_neg hak] at h
        simp only [List.map_cons, List.mem_cons]
        push_neg
        exact ⟨fun hq => hak hq.symm, ih h⟩

/-- Writing a key makes that key read back the written value. -/
theorem getProp_setKey_self (o : Obj) (k : String) (v : Val) :
    getProp (setKey o k v) k = some v := by
  induction o with
  | nil => simp [setKey, getProp]
  | cons kv rest ih =>
      obtain ⟨a, b⟩ := kv
      by_cases hak : a = k
      · subst hak
        simp [setKey, getProp]
      · simp [setKey, getProp, hak, ih]

/-- Writing a key leaves every other key's reading unchanged. -/
theorem getProp_setKey_ne (o : Obj) (k k' : String) (v : Val) (h : k' ≠ k) :
    getProp (setKey o k v) k' = getProp o k' := by
  have hne : ¬ k = k' := fun hq => h hq.symm
  induction o with
  | nil => simp [setKey, getProp, hne]
  | cons kv rest ih =>
      obtain ⟨a, b⟩ := kv
      by_cases hak : a = k
      · subst hak
        simp [setKey, getProp, hne]
      · simp only [setKey, if_neg hak, getProp]
        by_cases hak' : a = k'
        · simp [hak']
        · simp [hak', ih]

/-- Keys of `setKey o k v` come from `o` or are `k` itself. -/
theorem mem_map_fst_setKey (o : Obj) (k : String) (v : Val) (x : String)
    (h : x ∈ (setKey o k v).map Prod.fst) : x = k ∨ x ∈ o.map Prod.fst := by
  induction o with
  | nil => simpa [setKey] using h
  | cons kv rest ih =>
      obtain ⟨a, b⟩ := kv
      by_cases hak : a = k
      · subst hak
        simpa [setKey] using h
      · simp only [setKey, if_neg hak, List.map_cons, List.mem_cons] at h
        rcases h with h | h
        · exact Or.inr (by simp [h])
        · rcases ih h with h1 | h1
          · exact Or.inl h1
          · exact Or.inr (by simp [h1])

/-- Writing a key preserves distinctness of keys. -/
theorem nodup_setKey (o : Obj) (k : String) (v : Val)
    (h : (o.map Prod.fst).Nodup) : ((setKey o k v).map Prod.fst).Nodup := by
  induction o with
  | nil => simp [setKey]
  | cons kv rest ih =>
      obtain ⟨a, b⟩ := kv
      simp only [List.map_cons, List.nodup_cons] at h
      by_cases hak : a = k
      · subst hak
        have hset : setKey ((a, b) :: rest) a v = (a, v) :: rest := by
          simp [setKey]
        rw [hset]
        simp only [List.map_cons, List.nodup_cons]
        exact h
      · simp only [setKey, if_neg hak, List.map_cons, List.nodup_cons]
        refine ⟨fun hmem => ?_, ih h.2⟩
        rcases mem_map_fst_setKey rest k v a hmem with h1 | h1
        · exact hak h1
        · exact h.1 h1

/-- Spreading a source with no binding for `k` leaves `k`'s reading in the
destination unchanged. -/
theorem getProp_spreadInto_none (dst src : Obj) (k : String)
    (h : getProp src k = none) :
    getProp (spreadInto dst src) k = getProp dst k := by
  induction src generalizing dst with
  | nil => rfl
  | cons kv rest ih =>
      obtain ⟨a, b⟩ := kv
      have hak : ¬ a = k := by
        intro hq
        subst hq
        simp [getProp] at h
      have hrest : getProp rest k = none := by
        simpa [getProp, hak] using h
      simp only [spreadInto]
      rw [ih _ hrest, getProp_setKey_ne _ _ _ _ (fun hq => hak hq.symm)]

/-- Spreading a duplicate-free source binds each of its keys to its value
in the result, overwriting the destination. -/
theorem getProp_spreadInto_some (dst src : Obj) (k : String) (v : Val)
    (hnd : (src.map Prod.fst).Nodup) (h : getProp src k = some v) :
    getProp (spreadInto dst src) k = some v := by
  induction src generalizing dst with
  | nil => simp [getProp] at h
  | cons kv rest ih =>
      obtain ⟨a, b⟩ := kv
      simp only [List.map_cons, List.nodup_cons] at hnd
      by_cases hak : a = k
      · subst hak
        have hv : some b = some v := by simpa [getProp] using h
        have hrest : getProp rest a = none :=
          getProp_eq_none_of_not_mem _ _ hnd.1
        simp only [spreadInto]
        rw [getProp_spreadInto_none _ _ _ hrest, getProp_setKey_self]
        exact hv
      · have hrest : getProp rest k = some v := by simpa [getProp, hak] using h
        simp only [spreadInto]
        exact ih _ hnd.2 hrest

/-- Spreading a source that never touches key `k` keeps a leading `(k, v)`
binding of the destination in place. -/
theorem spreadInto_cons (dst src : Obj) (k : String) (v : Val)
    (h : k ∉ src.map Prod.fst) :
    spreadInto ((k, v) :: dst) src = (k, v) :: spreadInto dst src := by
  induction src generalizing dst with
  | nil => rfl
  | cons kv rest ih =>
      obtain ⟨a, b⟩ := kv
      simp only [List.map_cons, List.mem_cons] at h
      push_neg at h
      simp only [spreadInto, setKey]
      rw [if_neg h.1]
      exact ih _ h.2

/-- Copying a duplicate-free object by spread reproduces it exactly. -/
theorem spreadInto_nil_of_nodup (o : Obj) (h : (o.map Prod.fst).Nodup) :
    spreadInto [] o = o := by
  induction o with
  | nil => rfl
  | cons kv rest ih =>
      obtain ⟨a, b⟩ := kv
      simp only [List.map_cons, List.nodup_cons] at h
      show spreadInto (setKey [] a b) rest = (a, b) :: rest
      rw [show setKey [] a b = (a, b) :: [] from rfl,
        spreadInto_cons [] rest a b h.1, ih h.2]

/-- Spreading preserves distinctness of keys of the destination. -/
theorem nodup_spreadInto (dst src : Obj) (h : (dst.map Prod.fst).Nodup) :
    ((spreadInto dst src).map Prod.fst).Nodup := by
  induction src generalizing dst with
  | nil => exact h
  | cons kv rest ih =>
      obtain ⟨a, b⟩ := kv
      simp only [spreadInto]
      exact ih _ (nodup_setKey dst a b h)

/-- The merged extensions built by the field-errors constructors, after
the copy performed by `resolveExtensions`: when the caller bag has no
`"errors"` binding, the result is the errors entry followed by the bag's
own bindings as siblings. -/
theorem merged_eq_cons (V : Val) (bag : Obj)
    (hnd : (bag.map Prod.fst).Nodup)
    (hnone : getProp bag extensionsErrorKey = none) :
    spreadInto [] (spreadInto [(extensionsErrorKey, V)] (spreadInto [] bag)) =
      (extensionsErrorKey, V) :: bag := by
  have hmem : extensionsErrorKey ∉ bag.map Prod.fst :=
    not_mem_of_getProp_eq_none bag extensionsErrorKey hnone
  rw [spreadInto_nil_of_nodup bag hnd,
    show ([(extensionsErrorKey, V)] : Obj) = (extensionsErrorKey, V) :: []
      from rfl,
    spreadInto_cons [] bag extensionsErrorKey V hmem,
    spreadInto_nil_of_nodup bag hnd]
  exact spreadInto_nil_of_nodup _ (by simp [List.nodup_cons, hmem, hnd])

/-- The merged extensions built by the field-errors constructors, after
the copy performed by `resolveExtensions`: a caller bag binding of
`"errors"` wins against the field-errors entry. -/
theorem merged_getProp_collision (V : Val) (bag : Obj) (v : Val)
    (hnd : (bag.map Prod.fst).Nodup)
    (hv : getProp bag extensionsErrorKey = some v) :
    getProp
      (spreadInto [] (spreadInto [(extensionsErrorKey, V)] (spreadInto [] bag)))
      extensionsErrorKey = some v := by
  rw [spreadInto_nil_of_nodup bag hnd]
  have h2 : ((spreadInto [(extensionsErrorKey, V)] bag).map Prod.fst).Nodup :=
    nodup_spreadInto _ bag (by simp)
  rw [spreadInto_nil_of_nodup _ h2]
  exact getProp_spreadInto_some _ bag extensionsErrorKey v hnd hv

/-- A mutable store of JavaScript objects, indexed by address. It models
the heap on which the shallow copy `{ ...x }` inside `resolveExtensions`
operates, so that aliasing between the caller's bag and the constructed
record can be expressed. -/
abbrev Store := Nat → Obj

/-- Overwrite the object at address `a` — a caller mutating its bag. -/
def writeStore (s : Store) (a : Nat) (o : Obj) : Store :=
  fun x => if x = a then o else s x

/-- Read the object at an address. -/
def readStore (s : Store) (a : Nat) : Obj := s a

/-- Store-level `resolveExtensions`: for a present bag at address `a`,
the copy `{ ...x }` allocates the spread-copy of the bag at the fresh
address and the record's extensions point there; for an absent bag the
store is untouched and the extensions are `undefined`. -/
def resolveExtensionsAt (s : Store) (fresh : Nat) :
    Maybe Nat → Store × Option Nat
  | some a => (writeStore s fresh (spreadInto [] (readStore s a)), some fresh)
  | none => (s, none)

/-- C2: for every constructor, the returned record's `extensions` field is
present exactly when a field-errors map or a present caller extension bag
was supplied: the four field-errors constructors always produce a present
`extensions`, and each of the fifteen other constructors produces a
present `extensions` exactly when the caller bag is present. -/
theorem extensionsPresentIffSupplied (inst ty d : String)
    (e : List (String × List String)) (e' : Obj) (m : Maybe Obj) :
    (badRequest inst ty d e m).extensions.isSome = true ∧
    (internalServerError inst ty d e m).extensions.isSome = true ∧
    (preconditionFailed inst ty d e m).extensions.isSome = true ∧
    (unprocessableContent inst ty d e' m).extensions.isSome = true ∧
    (conflict inst ty d m).extensions.isSome = m.isSome ∧
    (forbidden inst ty d m).extensions.isSome = m.isSome ∧
    (gone inst ty d m).extensions.isSome = m.isSome ∧
    (methodNotAllowed inst ty d m).extensions.isSome = m.isSome ∧
    (notAcceptable inst ty d m).extensions.isSome = m.isSome ∧
    (notFound inst ty d m).extensions.isSome = m.isSome ∧
    (notImplemented inst ty d m).extensions.isSome = m.isSome ∧
    (paymentRequired inst ty d m).extensions.isSome = m.isSome ∧
    (preconditionRequired inst ty d m).extensions.isSome = m.isSome ∧
    (requestTimeout inst ty d m).extensions.isSome = m.isSome ∧
    (serviceUnavailable inst ty d m).extensions.isSome = m.isSome ∧
    (tooManyRequests inst ty d m).extensions.isSome = m.isSome ∧
    (unauthorized inst ty d m).extensions.isSome = m.isSome ∧
    (unavailableForLegalReasons inst ty d m).extensions.isSome = m.isSome ∧
    (unsupportedMediaType inst ty d m).extensions.isSome = m.isSome := by
  cases m <;>
    exact ⟨rfl, rfl, rfl, rfl, rfl, rfl, rfl, rfl, rfl, rfl, rfl, rfl, rfl,
      rfl, rfl, rfl, rfl, rfl, rfl⟩

/-- C3: each of the nineteen constructors, applied to arbitrary instance,
type and detail strings (and, where applicable, an arbitrary field-errors
map) with an absent extension argument, yields a record with exactly the
status code and title of the spec's table for that constructor. -/
theorem statusTitleTable (inst ty d : String)
    (e : List (String × List String)) (e' : Obj) :
    ((badRequest inst ty d e none).status = 400 ∧
      (badRequest inst ty d e none).title = "Bad Request") ∧
    ((internalServerError inst ty d e none).status = 500 ∧
      (internalServerError inst ty d e none).title = "Internal Server Error") ∧
    ((preconditionFailed inst ty d e none).status = 412 ∧
      (preconditionFailed inst ty d e none).title = "Precondition Failed") ∧
    ((unprocessableContent inst ty d e' none).status = 422 ∧
      (unprocessableContent inst ty d e' none).title = "Unprocessable Content") ∧
    ((conflict inst ty d none).status = 409 ∧
      (conflict inst ty d none).title = "Conflict") ∧
    ((forbidden inst ty d none).status = 403 ∧
      (forbidden inst ty d none).title = "Forbidden") ∧
    ((gone inst ty d none).status = 410 ∧
      (gone inst ty d none).title = "Gone") ∧
    ((methodNotAllowed inst ty d none).status = 405 ∧
      (methodNotAllowed inst ty d none).title = "Method Not Allowed") ∧
    ((notAcceptable inst ty d none).status = 406 ∧
      (notAcceptable inst ty d none).title = "Not Acceptable") ∧
    ((notFound inst ty d none).status = 404 ∧
      (notFound inst ty d none).title = "Not Found") ∧
    ((notImplemented inst ty d none).status = 501 ∧
      (notImplemented inst ty d none).title = "Not Implemented") ∧
    ((paymentRequired inst ty d none).status = 402 ∧
      (paymentRequired inst ty d none).title = "Payment Required") ∧
    ((preconditionRequired inst ty d none).status = 428 ∧
      (preconditionRequired inst ty d none).title = "Precondition Required") ∧
    ((requestTimeout inst ty d none).status = 408 ∧
      (requestTimeout inst ty d none).title = "Request Timeout") ∧
    ((serviceUnavailable inst ty d none).status = 503 ∧
      (serviceUnavailable inst ty d none).title = "Service Unavailable") ∧
    ((tooManyRequests inst ty d none).status = 429 ∧
      (tooManyRequests inst ty d none).title = "Too Many Requests") ∧
    ((unauthorized inst ty d none).status = 401 ∧
      (unauthorized inst ty d none).title = "Unauthorized") ∧
    ((unavailableForLegalReasons inst ty d none).status = 451 ∧
      (unavailableForLegalReasons inst ty d none).title =
        "Unavailable For Legal Reasons") ∧
    ((unsupportedMediaType inst ty d none).status = 415 ∧
      (unsupportedMediaType inst ty d none).title = "Unsupported Media Type") :=
  ⟨⟨rfl, rfl⟩, ⟨rfl, rfl⟩, ⟨rfl, rfl⟩, ⟨rfl, rfl⟩, ⟨rfl, rfl⟩, ⟨rfl, rfl⟩,
    ⟨rfl, rfl⟩, ⟨rfl, rfl⟩, ⟨rfl, rfl⟩, ⟨rfl, rfl⟩, ⟨rfl, rfl⟩, ⟨rfl, rfl⟩,
    ⟨rfl, rfl⟩, ⟨rfl, rfl⟩, ⟨rfl, rfl⟩, ⟨rfl, rfl⟩, ⟨rfl, rfl⟩, ⟨rfl, rfl⟩,
    ⟨rfl, rfl⟩⟩

/-- C4: each field-errors-accepting constructor, given a field-errors map
and an absent extension bag, yields a present `extensions` equal to the
one-entry mapping binding `"errors"` to that map. -/
theorem fieldErrorsAloneYieldErrorsEntry (inst ty d : String)
    (e : List (String × List String)) (e' : Obj) :
    (badRequest inst ty d e none).extensions =
      some [(extensionsErrorKey, fieldErrorsVal e)] ∧
    (internalServerError inst ty d e none).extensions =
      some [(extensionsErrorKey, fieldErrorsVal e)] ∧
    (preconditionFailed inst ty d e none).extensions =
      some [(extensionsErrorKey, fieldErrorsVal e)] ∧
    (unprocessableContent inst ty d e' none).extensions =
      some [(extensionsErrorKey, Val.vObj e')] :=
  ⟨rfl, rfl, rfl, rfl⟩

/-- C8: the concrete bad-input scenario: every field of the record built
by `badRequest "/users" "https://httpstatuses.io/400" "Invalid input"`
with the single field error `user.email -> ["must be an email"]` and an
absent bag is exactly as the spec's scenario states. -/
theorem badRequestConcreteScenario :
    badRequest "/users" "https://httpstatuses.io/400" "Invalid input"
      [("user.email", ["must be an email"])] none =
      { detail := "Invalid input"
        extensions := some [("errors",
          Val.vObj [("user.email", Val.vArr [Val.vStr "must be an email"])])]
        «instance» := "/users"
        status := 400
        title := "Bad Request"
        type := "https://httpstatuses.io/400" } := rfl

/-- C9: every constructor is a total function that always yields a fully
populated record; in particular the caller-supplied detail, instance and
type strings are passed through unchanged on every input, present or
absent bag alike. -/
theorem constructorsTotalPassThrough (inst ty d : String)
    (e : List (String × List String)) (e' : Obj) (m : Maybe Obj) :
    ((badRequest inst ty d e m).detail = d ∧
      (badRequest inst ty d e m).«instance» = inst ∧
      (badRequest inst ty d e m).type = ty) ∧
    ((internalServerError inst ty d e m).detail = d ∧
      (internalServerError inst ty d e m).«instance» = inst ∧
      (internalServerError inst ty d e m).type = ty) ∧
    ((preconditionFailed inst ty d e m).detail = d ∧
      (preconditionFailed inst ty d e m).«instance» = inst ∧
      (preconditionFailed inst ty d e m).type = ty) ∧
    ((unprocessableContent inst ty d e' m).detail = d ∧
      (unprocessableContent inst ty d e' m).«instance» = inst ∧
      (unprocessableContent inst ty d e' m).type = ty) ∧
    ((conflict inst ty d m).detail = d ∧
      (conflict inst ty d m).«instance» = inst ∧
      (conflict inst ty d m).type = ty) ∧
    ((forbidden inst ty d m).detail = d ∧
      (forbidden inst ty d m).«instance» = inst ∧
      (forbidden inst ty d m).type = ty) ∧
    ((gone inst ty d m).detail = d ∧
      (gone inst ty d m).«instance» = inst ∧
      (gone inst ty d m).type = ty) ∧
    ((methodNotAllowed inst ty d m).detail = d ∧
      (methodNotAllowed inst ty d m).«instance» = inst ∧
      (methodNotAllowed inst ty d m).type = ty) ∧
    ((notAcceptable inst ty d m).detail = d ∧
      (notAcceptable inst ty d m).«instance» = inst ∧
      (notAcceptable inst ty d m).type = ty) ∧
    ((notFound inst ty d m).detail = d ∧
      (notFound inst ty d m).«instance» = inst ∧
      (notFound inst ty d m).type = ty) ∧
    ((notImplemented inst ty d m).detail = d ∧
      (notImplemented inst ty d m).«instance» = inst ∧
      (notImplemented inst ty d m).type = ty) ∧
    ((paymentRequired inst ty d m).detail = d ∧
      (paymentRequired inst ty d m).«instance» = inst ∧
      (paymentRequired inst ty d m).type = ty) ∧
    ((preconditionRequired inst ty d m).detail = d ∧
      (preconditionRequired inst ty d m).«instance» = inst ∧
      (preconditionRequired inst ty d m).type = ty) ∧
    ((requestTimeout inst ty d m).detail = d ∧
      (requestTimeout inst ty d m).«instance» = inst ∧
      (requestTimeout inst ty d m).type = ty) ∧
    ((serviceUnavailable inst ty d m).detail = d ∧
      (serviceUnavailable inst ty d m).«instance» = inst ∧
      (serviceUnavailable inst ty d m).type = ty) ∧
    ((tooManyRequests inst ty d m).detail = d ∧
      (tooManyRequests inst ty d m).«instance» = inst ∧
      (tooManyRequests inst ty d m).type = ty) ∧
    ((unauthorized inst ty d m).detail = d ∧
      (unauthorized inst ty d m).«instance» = inst ∧
      (unauthorized inst ty d m).type = ty) ∧
    ((unavailableForLegalReasons inst ty d m).detail = d ∧
      (unavailableForLegalReasons inst ty d m).«instance» = inst ∧
      (unavailableForLegalReasons inst ty d m).type = ty) ∧
    ((unsupportedMediaType inst ty d m).detail = d ∧
      (unsupportedMediaType inst ty d m).«instance» = inst ∧
      (unsupportedMediaType inst ty d m).type = ty) :=
  ⟨⟨rfl, rfl, rfl⟩, ⟨rfl, rfl, rfl⟩, ⟨rfl, rfl, rfl⟩, ⟨rfl, rfl, rfl⟩,
    ⟨rfl, rfl, rfl⟩, ⟨rfl, rfl, rfl⟩, ⟨rfl, rfl, rfl⟩, ⟨rfl, rfl, rfl⟩,
    ⟨rfl, rfl, rfl⟩, ⟨rfl, rfl, rfl⟩, ⟨rfl, rfl, rfl⟩, ⟨rfl, rfl, rfl⟩,
    ⟨rfl, rfl, rfl⟩, ⟨rfl, rfl, rfl⟩, ⟨rfl, rfl, rfl⟩, ⟨rfl, rfl, rfl⟩,
    ⟨rfl, rfl, rfl⟩, ⟨rfl, rfl, rfl⟩, ⟨rfl, rfl, rfl⟩⟩

/-- C1: for each field-errors-accepting constructor, a present caller bag
that itself binds the literal key `"errors"` wins the collision: the
returned record's extensions bind `"errors"` to the bag's value, not to
the field-errors map. -/
theorem callerExtensionsWinCollision (inst ty d : String)
    (e : List (String × List String)) (e' : Obj) (bag : Obj) (v : Val)
    (hnd : (bag.map Prod.fst).Nodup)
    (hv : getProp bag extensionsErrorKey = some v) :
    (∃ ext, (badRequest inst ty d e (some bag)).extensions = some ext ∧
      getProp ext extensionsErrorKey = some v) ∧
    (∃ ext, (internalServerError inst ty d e (some bag)).extensions = some ext ∧
      getProp ext extensionsErrorKey = some v) ∧
    (∃ ext, (preconditionFailed inst ty d e (some bag)).extensions = some ext ∧
      getProp ext extensionsErrorKey = some v) ∧
    (∃ ext, (unprocessableContent inst ty d e' (some bag)).extensions = some ext ∧
      getProp ext extensionsErrorKey = some v) :=
  ⟨⟨_, rfl, merged_getProp_collision (fieldErrorsVal e) bag v hnd hv⟩,
    ⟨_, rfl, merged_getProp_collision (fieldErrorsVal e) bag v hnd hv⟩,
    ⟨_, rfl, merged_getProp_collision (fieldErrorsVal e) bag v hnd hv⟩,
    ⟨_, rfl, merged_getProp_collision (Val.vObj e') bag v hnd hv⟩⟩

/-- C1 witness: the collision theorem instantiated at a concrete bag that
binds `"errors"` to the string `"mine"`. -/
theorem callerExtensionsWinCollision_witness :
    ((([("errors", Val.vStr "mine")] : Obj).map Prod.fst).Nodup) ∧
    (getProp [("errors", Val.vStr "mine")] extensionsErrorKey =
      some (Val.vStr "mine")) ∧
    ((∃ ext, (badRequest "/i" "t" "d" []
        (some [("errors", Val.vStr "mine")])).extensions = some ext ∧
      getProp ext extensionsErrorKey = some (Val.vStr "mine")) ∧
    (∃ ext, (internalServerError "/i" "t" "d" []
        (some [("errors", Val.vStr "mine")])).extensions = some ext ∧
      getProp ext extensionsErrorKey = some (Val.vStr "mine")) ∧
    (∃ ext, (preconditionFailed "/i" "t" "d" []
        (some [("errors", Val.vStr "mine")])).extensions = some ext ∧
      getProp ext extensionsErrorKey = some (Val.vStr "mine")) ∧
    (∃ ext, (unprocessableContent "/i" "t" "d" []
        (some [("errors", Val.vStr "mine")])).extensions = some ext ∧
      getProp ext extensionsErrorKey = some (Val.vStr "mine"))) :=
  ⟨by decide, rfl,
    callerExtensionsWinCollision "/i" "t" "d" [] [] _ _ (by decide) rfl⟩

/-- C5: for each field-errors-accepting constructor, a field-errors map
together with a present bag that does not bind `"errors"` yields
extensions equal to the `"errors"` entry followed by every binding of the
bag as sibling entries at the same top level. -/
theorem fieldErrorsAndBagAreSiblings (inst ty d : String)
    (e : List (String × List String)) (e' : Obj) (bag : Obj)
    (hnd : (bag.map Prod.fst).Nodup)
    (hnone : getProp bag extensionsErrorKey = none) :
    (badRequest inst ty d e (some bag)).extensions =
      some ((extensionsErrorKey, fieldErrorsVal e) :: bag) ∧
    (internalServerError inst ty d e (some bag)).extensions =
      some ((extensionsErrorKey, fieldErrorsVal e) :: bag) ∧
    (preconditionFailed inst ty d e (some bag)).extensions =
      some ((extensionsErrorKey, fieldErrorsVal e) :: bag) ∧
    (unprocessableContent inst ty d e' (some bag)).extensions =
      some ((extensionsErrorKey, Val.vObj e') :: bag) :=
  ⟨congrArg some (merged_eq_cons (fieldErrorsVal e) bag hnd hnone),
    congrArg some (merged_eq_cons (fieldErrorsVal e) bag hnd hnone),
    congrArg some (merged_eq_cons (fieldErrorsVal e) bag hnd hnone),
    congrArg some (merged_eq_cons (Val.vObj e') bag hnd hnone)⟩

/-- C5 witness: the sibling-merge theorem instantiated at the spec's own
example, field errors `a.b -> ["m1","m2"]` and bag `x -> 1`. -/
theorem fieldErrorsAndBagAreSiblings_witness :
    ((([("x", Val.vNum 1)] : Obj).map Prod.fst).Nodup) ∧
    (getProp [("x", Val.vNum 1)] extensionsErrorKey = none) ∧
    ((badRequest "/i" "t" "d" [("a.b", ["m1", "m2"])]
        (some [("x", Val.vNum 1)])).extensions =
      some [(extensionsErrorKey, fieldErrorsVal [("a.b", ["m1", "m2"])]),
        ("x", Val.vNum 1)] ∧
    (internalServerError "/i" "t" "d" [("a.b", ["m1", "m2"])]
        (some [("x", Val.vNum 1)])).extensions =
      some [(extensionsErrorKey, fieldErrorsVal [("a.b", ["m1", "m2"])]),
        ("x", Val.vNum 1)] ∧
    (preconditionFailed "/i" "t" "d" [("a.b", ["m1", "m2"])]
        (some [("x", Val.vNum 1)])).extensions =
      some [(extensionsErrorKey, fieldErrorsVal [("a.b", ["m1", "m2"])]),
        ("x", Val.vNum 1)] ∧
    (unprocessableContent "/i" "t" "d" [("a.b", Val.vNum 2)]
        (some [("x", Val.vNum 1)])).extensions =
      some [(extensionsErrorKey, Val.vObj [("a.b", Val.vNum 2)]),
        ("x", Val.vNum 1)]) :=
  ⟨by decide, rfl,
    fieldErrorsAndBagAreSiblings "/i" "t" "d" [("a.b", ["m1", "m2"])]
      [("a.b", Val.vNum 2)] [("x", Val.vNum 1)] (by decide) rfl⟩

/-- C6 counterexample: a present-but-empty extension bag with no
field-errors map still yields a present (empty) `extensions` mapping,
refuting the claim that a present-but-empty bag alone never makes
`extensions` present. -/
theorem emptyBagStillYieldsExtensions :
    (conflict "/x" "about:blank" "boom" (some ([] : Obj))).extensions =
      some [] := rfl

/-- C6 amended: `extensions` is present only when the caller supplied a
field-errors map and/or a present extension bag. For each of the fifteen
constructors without a field-errors argument — the only ones where no
field-errors map can be supplied — an absent bag yields absent
`extensions`; since the bag is either absent or present, this is exactly
the contrapositive of "present extensions implies a present bag". -/
theorem extensionsAbsentWhenNothingSupplied (inst ty d : String) :
    (conflict inst ty d none).extensions = none ∧
    (forbidden inst ty d none).extensions = none ∧
    (gone inst ty d none).extensions = none ∧
    (methodNotAllowed inst ty d none).extensions = none ∧
    (notAcceptable inst ty d none).extensions = none ∧
    (notFound inst ty d none).extensions = none ∧
    (notImplemented inst ty d none).extensions = none ∧
    (paymentRequired inst ty d none).extensions = none ∧
    (preconditionRequired inst ty d none).extensions = none ∧
    (requestTimeout inst ty d none).extensions = none ∧
    (serviceUnavailable inst ty d none).extensions = none ∧
    (tooManyRequests inst ty d none).extensions = none ∧
    (unauthorized inst ty d none).extensions = none ∧
    (unavailableForLegalReasons inst ty d none).extensions = none ∧
    (unsupportedMediaType inst ty d none).extensions = none :=
  ⟨rfl, rfl, rfl, rfl, rfl, rfl, rfl, rfl, rfl, rfl, rfl, rfl, rfl, rfl,
    rfl⟩

/-- C7: the copy `{ ...x }` performed by `resolveExtensions` detaches the
record from the caller's bag: at store level, after construction copies
the bag at address `a` to the fresh address, overwriting the caller's
object at `a` leaves the object reachable through the record's extensions
address unchanged — still the spread-copy of the original bag. -/
theorem extensionsCopyIsUnaffectedByBagMutation (s : Store) (a fresh : Nat)
    (o' : Obj) (h : fresh ≠ a) :
    (resolveExtensionsAt s fresh (some a)).2 = some fresh ∧
    readStore
        (writeStore (resolveExtensionsAt s fresh (some a)).1 a o') fresh =
      spreadInto [] (readStore s a) := by
  refine ⟨rfl, ?_⟩
  simp [resolveExtensionsAt, readStore, writeStore, h]

/-- C7 witness: the no-aliasing theorem at a concrete store holding the
bag `k -> 7` at address 0, copied to address 1, then mutated at 0. -/
theorem extensionsCopyIsUnaffectedByBagMutation_witness :
    (1 : Nat) ≠ 0 ∧
    ((resolveExtensionsAt (fun _ => [("k", Val.vNum 7)]) 1 (some 0)).2 =
        some 1 ∧
      readStore
          (writeStore
            (resolveExtensionsAt (fun _ => [("k", Val.vNum 7)]) 1 (some 0)).1
            0 []) 1 =
        spreadInto [] (readStore (fun _ => [("k", Val.vNum 7)]) 0)) :=
  ⟨by decide,
    extensionsCopyIsUnaffectedByBagMutation (fun _ => [("k", Val.vNum 7)])
      0 1 [] (by decide)⟩

/-- C10: each constructor without a field-errors argument, given a present
caller bag, returns extensions equal to that bag exactly — the same keys
with the same values, nothing added, removed or altered. -/
theorem bagPassedThroughUnchanged (inst ty d : String) (b : Obj)
    (hnd : (b.map Prod.fst).Nodup) :
    (conflict inst ty d (some b)).extensions = some b ∧
    (forbidden inst ty d (some b)).extensions = some b ∧
    (gone inst ty d (some b)).extensions = some b ∧
    (methodNotAllowed inst ty d (some b)).extensions = some b ∧
    (notAcceptable inst ty d (some b)).extensions = some b ∧
    (notFound inst ty d (some b)).extensions = some b ∧
    (notImplemented inst ty d (some b)).extensions = some b ∧
    (paymentRequired inst ty d (some b)).extensions = some b ∧
    (preconditionRequired inst ty d (some b)).extensions = some b ∧
    (requestTimeout inst ty d (some b)).extensions = some b ∧
    (serviceUnavailable inst ty d (some b)).extensions = some b ∧
    (tooManyRequests inst ty d (some b)).extensions = some b ∧
    (unauthorized inst ty d (some b)).extensions = some b ∧
    (unavailableForLegalReasons inst ty d (some b)).extensions = some b ∧
    (unsupportedMediaType inst ty d (some b)).extensions = some b := by
  have h : resolveExtensions (some b) = some b :=
    congrArg some (spreadInto_nil_of_nodup b hnd)
  exact ⟨h, h, h, h, h, h, h, h, h, h, h, h, h, h, h⟩

/-- C10 witness: the pass-through theorem at the concrete bag `x -> 1`. -/
theorem bagPassedThroughUnchanged_witness :
    ((([("x", Val.vNum 1)] : Obj).map Prod.fst).Nodup) ∧
    (conflict "/i" "t" "d" (some [("x", Val.vNum 1)])).extensions =
      some [("x", Val.vNum 1)] :=
  ⟨by decide,
    (bagPassedThroughUnchanged "/i" "t" "d" [("x", Val.vNum 1)]
      (by decide)).1⟩

end Problems
